import Mathlib

/-!
Shallow embedding of `src/utils/api.py` (arxiv-research-agent).

The module implements an arXiv API client: a URL builder
(`ArxivApi.__get_query_url`), an Atom/XML feed parser
(`ArxivApi.__parse_query_xml`), a parser for the LLM query-rewriter
response (`ArxivApi.__parse_search_query_response`), a reranker wrapper
(`ArxivApi.__rerank_results`) around the Cohere rerank call, and the
`ArxivApi.query` orchestrator that wires them together and converts any
`requests.exceptions.RequestException` into a logged `None` return.

External network calls (the HTTP GET, the Gemini generation call, the
Cohere rerank call) are modelled as explicit oracle arguments carrying
the outcome the external system produced; everything the Python code
itself computes is embedded as executable Lean functions.  Python
exceptions are modelled by an `Except PyErr` result; the distinct
exception classes the code can raise or catch become constructors of
`PyErr`.  Relevance scores (Python floats that the code only stores and
whose ordering the provider contract speaks about, never arithmetic)
are modelled as `Rat`.
-/

/-- Python exception classes reachable in `api.py`, as an error type.
`requestException` is `requests.exceptions.RequestException` (the class
caught in `ArxivApi.query`); the message payload feeds the diagnostic
`print`.  The other constructors model `AttributeError` (method access
on `None`), `KeyError`, `TypeError`, `json.JSONDecodeError`,
`ValueError` and `IndexError`. -/
inductive PyErr where
  | requestException (msg : String)
  | attributeError
  | keyError
  | typeError
  | jsonDecodeError
  | valueError
  | indexError
deriving DecidableEq

/-- Returns `true` iff the computation produced a value (no exception). -/
def exceptOk {ε α : Type} : Except ε α → Bool
  | .ok _ => true
  | .error _ => false

/-- Sequential effectful map over a list in the `Except` monad: the
embedding of a Python `for` loop (or comprehension) that builds a list
and aborts at the first raised exception. -/
def mapE {ε α β : Type} (f : α → Except ε β) : List α → Except ε (List β)
  | [] => .ok []
  | x :: xs =>
    match f x with
    | .error e => .error e
    | .ok y =>
      match mapE f xs with
      | .error e => .error e
      | .ok ys => .ok (y :: ys)

/-- Embedding of Python `sep.join(parts)`. -/
def pyJoin (sep : String) : List String → String
  | [] => ""
  | [x] => x
  | x :: y :: xs => x ++ sep ++ pyJoin sep (y :: xs)

/-- Embedding of Python `str.strip()`: drop whitespace from both ends. -/
def pyStrip (s : String) : String :=
  ⟨((s.data.dropWhile Char.isWhitespace).reverse.dropWhile Char.isWhitespace).reverse⟩

/-! ## URL builder: `ArxivApi.__get_query_url` -/

/-- The `self.__base_url` string set in `ArxivApi.__init__`. -/
def base_url : String := "http://export.arxiv.org/api"

/-- The `params` list built inside `ArxivApi.__get_query_url`:
`search_query`, `start`, `max_results`, in that order, rendered by
f-string interpolation (no URL-encoding). -/
def get_query_params (search_query : String) (start max_results : Int) : List String :=
  ["search_query=" ++ search_query, "start=" ++ toString start,
   "max_results=" ++ toString max_results]

/-- Embedding of `ArxivApi.__get_query_url`: raises `ValueError` when `search_query`
is falsy (for a `str`, exactly when it is empty), otherwise joins the
three parameters with `&` after `base_url ++ "/query?"`. -/
def get_query_url (search_query : String) (start max_results : Int) : Except PyErr String :=
  if search_query = "" then .error .valueError
  else .ok (base_url ++ "/query?" ++ pyJoin "&" (get_query_params search_query start max_results))

/-! ## JSON model and `ArxivApi.__parse_search_query_response`

`json.loads` is Python standard-library code; its outcome on the raw
LLM response text is passed in as an oracle argument of type
`Except PyErr Json` (`.error .jsonDecodeError` when the text is not
valid JSON).  What the repository's own code does with that outcome —
the membership tests, the `KeyError`, the field extraction, and the
re-raise of `json.JSONDecodeError` — is embedded exactly. -/

/-- A parsed JSON value as `json.loads` returns it: objects become
dicts (association list with unique keys), arrays lists, and so on.
Numbers are modelled as `Int` (the code never computes with them). -/
inductive Json where
  | obj : List (String × Json) → Json
  | arr : List Json → Json
  | str : String → Json
  | num : Int → Json
  | bool : Bool → Json
  | null : Json

/-- Tests whether `n` is an initial segment of `l`. -/
def startsWithSeq : List Char → List Char → Bool
  | [], _ => true
  | _ :: _, [] => false
  | a :: as, b :: bs => a == b && startsWithSeq as bs

/-- Tests whether `n` occurs contiguously in `l`. -/
def containsSeq (n : List Char) : List Char → Bool
  | [] => n.isEmpty
  | c :: rest => startsWithSeq n (c :: rest) || containsSeq n rest

/-- Embedding of Python `key in x` for a string `key` and a value `x`
decoded from JSON: dict key membership for objects, element membership
for lists, substring test for strings, `TypeError` otherwise. -/
def pyContains (x : Json) (key : String) : Except PyErr Bool :=
  match x with
  | .obj fields => .ok (fields.any (fun p => p.1 == key))
  | .arr elems => .ok (elems.any (fun e =>
      match e with
      | .str s => s == key
      | _ => false))
  | .str s => .ok (containsSeq key.data s.data)
  | _ => .error .typeError

/-- Embedding of Python `x[key]` for a string `key`: dict lookup
(`KeyError` when absent) for objects, `TypeError` for every other
decoded-JSON value. -/
def pySubscript (x : Json) (key : String) : Except PyErr Json :=
  match x with
  | .obj fields => match fields.lookup key with
    | some v => .ok v
    | none => .error .keyError
  | _ => .error .typeError

/-- The `SearchQueryGenerationResponse` TypedDict: the two fields the
parser extracts from the LLM's JSON reply.  The runtime values are
whatever JSON values the dict held, so the fields are `Json`. -/
structure SearchQueryGenerationResponse where
  search_query : Json
  explanation : Json

/-- Embedding of `ArxivApi.__parse_search_query_response`, applied to the outcome of
`json.loads(response)`.  A decode failure is re-raised as
`json.JSONDecodeError`; the `all(key in response_dict for key in
('search_query', 'explanation'))` check raises `KeyError` when it comes
out false (and propagates `TypeError` from a non-iterable value);
otherwise the two fields are subscripted out of the value. -/
def parse_search_query_response (loadsResult : Except PyErr Json) :
    Except PyErr SearchQueryGenerationResponse :=
  match loadsResult with
  | .error e => .error e
  | .ok d =>
    match pyContains d "search_query" with
    | .error e => .error e
    | .ok h1 =>
      if !h1 then .error .keyError
      else
        match pyContains d "explanation" with
        | .error e => .error e
        | .ok h2 =>
          if !h2 then .error .keyError
          else
            match pySubscript d "search_query" with
            | .error e => .error e
            | .ok sq =>
              match pySubscript d "explanation" with
              | .error e => .error e
              | .ok ex => .ok ⟨sq, ex⟩

/-- Returns `true` iff the association list of a JSON object has a binding for
`key` (Python `key in dict`). -/
def jsonObjHas (fields : List (String × Json)) (key : String) : Bool :=
  fields.any (fun p => p.1 == key)

/-! ## XML model and `ArxivApi.__parse_query_xml`

An `xml.etree.ElementTree` element tree.  `ET.fromstring` is Python
standard-library code; its outcome on the raw response bytes enters as
an oracle value of type `Except PyErr XmlElement`.  Namespaced tags are
kept in the prefixed spelling the source's path strings use
(`atom:entry`, `arxiv:primary_category`, ...), the prefix-to-URI map
`self.__namespaces` being a fixed bijection here.  Attribute sets are
dicts, modelled as association lists with unique keys. -/
inductive XmlElement where
  | mk : String → List (String × String) → Option String → List XmlElement → XmlElement

/-- The element's (namespace-qualified) tag. -/
def XmlElement.tag : XmlElement → String
  | .mk t _ _ _ => t

/-- The element's attribute dict. -/
def XmlElement.attrs : XmlElement → List (String × String)
  | .mk _ a _ _ => a

/-- The element's text, `none` when the element has no text
(`Element.text is None`). -/
def XmlElement.text : XmlElement → Option String
  | .mk _ _ t _ => t

/-- The element's direct children, in document order. -/
def XmlElement.children : XmlElement → List XmlElement
  | .mk _ _ _ c => c

/-- Embedding of `Element.get(name)`: attribute lookup, `None` when absent. -/
def XmlElement.attr (e : XmlElement) (name : String) : Option String :=
  e.attrs.lookup name

/-- Embedding of `Element.findall(path)` for a predicate on direct children:
all matching children in document order. -/
def findallP (e : XmlElement) (p : XmlElement → Bool) : List XmlElement :=
  e.children.filter p

/-- Embedding of `Element.find(path)` for a predicate on direct children: the first
matching child, `None` when there is none. -/
def findP (e : XmlElement) (p : XmlElement → Bool) : Option XmlElement :=
  (findallP e p).head?

/-- Embedding of `Element.findall('tag', namespaces)`: all direct children with the
given tag, in document order. -/
def findall (e : XmlElement) (tag : String) : List XmlElement :=
  findallP e (fun c => c.tag == tag)

/-- Embedding of `Element.find('tag', namespaces)`: first direct child with the
given tag. -/
def find (e : XmlElement) (tag : String) : Option XmlElement :=
  findP e (fun c => c.tag == tag)

/-- Embedding of `entry.find(tag).text`: `AttributeError` when `find` returned
`None`; otherwise the element's text (which may itself be `None`). -/
def fText (e : XmlElement) (tag : String) : Except PyErr (Option String) :=
  match find e tag with
  | none => .error .attributeError
  | some c => .ok c.text

/-- Embedding of `entry.find(tag).text.strip()`: `AttributeError` when `find`
returned `None` or when the element's text is `None`. -/
def fTextStrip (e : XmlElement) (tag : String) : Except PyErr String :=
  match find e tag with
  | none => .error .attributeError
  | some c =>
    match c.text with
    | none => .error .attributeError
    | some t => .ok (pyStrip t)

/-- Embedding of `entry.find(path).get(attrName)` for a path with an attribute
predicate: `AttributeError` when no child matches; otherwise the
attribute value (`None` when the attribute is absent — no error). -/
def fAttr (e : XmlElement) (p : XmlElement → Bool) (attrName : String) :
    Except PyErr (Option String) :=
  match findP e p with
  | none => .error .attributeError
  | some c => .ok (c.attr attrName)

/-- Predicate for the path `atom:link[@rel="alternate"]`. -/
def isAlternateLink (c : XmlElement) : Bool :=
  c.tag == "atom:link" && c.attr "rel" == some "alternate"

/-- Predicate for the path `atom:link[@title="pdf"]`. -/
def isPdfLink (c : XmlElement) : Bool :=
  c.tag == "atom:link" && c.attr "title" == some "pdf"

/-- The `ArxivApiQueryResponse` TypedDict.  Fields read as
`find(...).text` or `find(...).get(...)` can be `None` at runtime even
though the TypedDict declares `str` (an element with no text, an
attribute that is absent), so they are `Option String`; `summary` goes
through `.strip()` and is always a string when parsing succeeds. -/
structure ArxivApiQueryResponse where
  id : Option String
  updated : Option String
  published : Option String
  title : Option String
  summary : String
  authors : List (Option String)
  link : Option String
  pdf_link : Option String
  primary_category : Option String
  categories : List (Option String)
deriving DecidableEq

/-- The body of the `for entry in entries` loop in
`ArxivApi.__parse_query_xml`: build one record from one `atom:entry`
element, raising `AttributeError` as the method chains on a `find`
miss do, in the source's field order. -/
def parseEntry (entry : XmlElement) : Except PyErr ArxivApiQueryResponse :=
  match fText entry "atom:id" with
  | .error e => .error e
  | .ok idT =>
    match fText entry "atom:updated" with
    | .error e => .error e
    | .ok updatedT =>
      match fText entry "atom:published" with
      | .error e => .error e
      | .ok publishedT =>
        match fText entry "atom:title" with
        | .error e => .error e
        | .ok titleT =>
          match fTextStrip entry "atom:summary" with
          | .error e => .error e
          | .ok summaryT =>
            match mapE (fun a => fText a "atom:name") (findall entry "atom:author") with
            | .error e => .error e
            | .ok authorsL =>
              match fAttr entry isAlternateLink "href" with
              | .error e => .error e
              | .ok linkT =>
                match fAttr entry isPdfLink "href" with
                | .error e => .error e
                | .ok pdfT =>
                  match fAttr entry (fun c => c.tag == "arxiv:primary_category") "term" with
                  | .error e => .error e
                  | .ok pcT =>
                    .ok ⟨idT, updatedT, publishedT, titleT, summaryT, authorsL, linkT, pdfT,
                      pcT, (findall entry "atom:category").map (fun c => c.attr "term")⟩

/-- Embedding of `ArxivApi.__parse_query_xml` applied to the outcome of
`ET.fromstring(xml_content)`: the records of the `atom:entry` children
of the feed root, in document order, aborting the whole batch at the
first exception. -/
def parse_query_xml (fromstringResult : Except PyErr XmlElement) :
    Except PyErr (List ArxivApiQueryResponse) :=
  match fromstringResult with
  | .error e => .error e
  | .ok root => mapE parseEntry (findall root "atom:entry")

/-! ## Reranker: `ArxivApi.__rerank_results`

The Cohere `rerank` call is an external network call; its outcome (an
exception, or a response carrying index/score pairs) enters as an
oracle argument.  The wrapper also returns the list of provider calls
it made, so that "the provider was invoked" is observable: the source
invokes `self.__cohere.rerank(...)` unconditionally, once. -/

/-- The `ArxivApiResponse` TypedDict: `ArxivApiQueryResponse` plus
`relevance_score`. -/
structure ArxivApiResponse where
  id : Option String
  updated : Option String
  published : Option String
  title : Option String
  summary : String
  authors : List (Option String)
  link : Option String
  pdf_link : Option String
  primary_category : Option String
  categories : List (Option String)
  relevance_score : Rat
deriving DecidableEq

/-- Embedding of `ArxivApiResponse.from_query_response`: copy every field of the
query record and attach the score. -/
def ArxivApiResponse.from_query_response (q : ArxivApiQueryResponse)
    (relevance_score : Rat) : ArxivApiResponse :=
  ⟨q.id, q.updated, q.published, q.title, q.summary, q.authors, q.link, q.pdf_link,
   q.primary_category, q.categories, relevance_score⟩

/-- Forget the score: the query-record part of a ranked record. -/
def ArxivApiResponse.toQueryResponse (r : ArxivApiResponse) : ArxivApiQueryResponse :=
  ⟨r.id, r.updated, r.published, r.title, r.summary, r.authors, r.link, r.pdf_link,
   r.primary_category, r.categories⟩

/-- One element of `rerank_results.results` as the Cohere client
returns it: an index into the submitted document list and a relevance
score. -/
structure RerankResultItem where
  index : Nat
  relevance_score : Rat
deriving DecidableEq

/-- The Cohere rerank response: its `results` list. -/
structure RerankResponse where
  results : List RerankResultItem

/-- The argument tuple of one `self.__cohere.rerank(...)` invocation. -/
structure RerankCall where
  query : String
  documents : List ArxivApiQueryResponse
  rank_fields : List String
  top_n : Nat

/-- Embedding of `ArxivApi.__rerank_results`: submit query and documents to the
provider (always exactly one call, `rank_fields=['summary']`), then map
each returned index back to `documents[result.index]` — Python list
indexing that raises `IndexError` when the index is out of range — and
attach the score via `from_query_response`. -/
def rerank_results (query : String) (documents : List ArxivApiQueryResponse)
    (top_n : Nat) (providerResponse : Except PyErr RerankResponse) :
    Except PyErr (List ArxivApiResponse) × List RerankCall :=
  let calls : List RerankCall := [⟨query, documents, ["summary"], top_n⟩]
  match providerResponse with
  | .error e => (.error e, calls)
  | .ok resp =>
    (mapE (fun result =>
        match documents.get? result.index with
        | none => .error .indexError
        | some doc => .ok (ArxivApiResponse.from_query_response doc result.relevance_score))
      resp.results, calls)

/-! ## Orchestrator: `ArxivApi.query` -/

/-- A `requests` response: its status code and the outcome of
`ET.fromstring(response.content)` on its body. -/
structure HttpResponse where
  status : Nat
  content : Except PyErr XmlElement

/-- Embedding of `response.raise_for_status()`: raises an `HTTPError` (a
`requests.exceptions.RequestException`) exactly for 4xx/5xx status
codes. -/
def raise_for_status (r : HttpResponse) : Except PyErr Unit :=
  if 400 ≤ r.status ∧ r.status < 600 then
    .error (.requestException ("HTTP status " ++ toString r.status))
  else .ok ()

/-- What one `ArxivApi.query` invocation produces: the returned value
(`none` being the null-result sentinel) or an uncaught exception, the
diagnostic messages printed, and the rerank-provider calls made. -/
structure QueryOutcome where
  result : Except PyErr (Option (List ArxivApiResponse))
  logs : List String
  rerank_calls : List RerankCall

/-- The body of the `try:` block in `ArxivApi.query`: rewrite the query
(outcome `genResult`, since the Gemini call is external), build the URL,
issue the GET (`http`), raise for status, parse, then rerank against the
original query. -/
def query_try_body (genResult : Except PyErr String)
    (http : String → Except PyErr HttpResponse)
    (rerankResp : Except PyErr RerankResponse)
    (q : String) (start max_results : Int) (top_n : Nat) :
    Except PyErr (List ArxivApiResponse) × List RerankCall :=
  match genResult with
  | .error e => (.error e, [])
  | .ok sq =>
    match get_query_url sq start max_results with
    | .error e => (.error e, [])
    | .ok url =>
      match http url with
      | .error e => (.error e, [])
      | .ok resp =>
        match raise_for_status resp with
        | .error e => (.error e, [])
        | .ok _ =>
          match parse_query_xml resp.content with
          | .error e => (.error e, [])
          | .ok docs => rerank_results q docs top_n rerankResp

/-- Embedding of `ArxivApi.query`: run the try-body; a
`requests.exceptions.RequestException` from anywhere inside it is
caught, a diagnostic is printed, and `None` is returned.  Every other
exception propagates to the caller. -/
def query (genResult : Except PyErr String)
    (http : String → Except PyErr HttpResponse)
    (rerankResp : Except PyErr RerankResponse)
    (q : String) (start max_results : Int) (top_n : Nat) : QueryOutcome :=
  match query_try_body genResult http rerankResp q start max_results top_n with
  | (.error (.requestException m), calls) =>
    ⟨.ok none, ["An error occurred: " ++ m], calls⟩
  | (.error e, calls) => ⟨.error e, [], calls⟩
  | (.ok r, calls) => ⟨.ok (some r), [], calls⟩

/-! ## Concrete feeds used by witnesses and counterexamples -/

/-- An `atom:author` element with a single `atom:name` child. -/
def mkAuthor (n : String) : XmlElement :=
  .mk "atom:author" [] none [.mk "atom:name" [] (some n) []]

/-- A complete, well-formed `atom:entry` element with two authors and
two categories. -/
def cEntry1 : XmlElement :=
  .mk "atom:entry" [] none
    [.mk "atom:id" [] (some "http://arxiv.org/abs/2401.00001v1") [],
     .mk "atom:updated" [] (some "2024-01-02T00:00:00Z") [],
     .mk "atom:published" [] (some "2024-01-01T00:00:00Z") [],
     .mk "atom:title" [] (some "First title") [],
     .mk "atom:summary" [] (some " First summary ") [],
     mkAuthor "Alice", mkAuthor "Bob",
     .mk "atom:link" [("rel", "alternate"), ("href", "http://arxiv.org/abs/2401.00001v1")]
       none [],
     .mk "atom:link" [("title", "pdf"), ("href", "http://arxiv.org/pdf/2401.00001v1")]
       none [],
     .mk "arxiv:primary_category" [("term", "cs.AI")] none [],
     .mk "atom:category" [("term", "cs.AI")] none [],
     .mk "atom:category" [("term", "cs.LG")] none []]

/-- A second complete, well-formed `atom:entry` element. -/
def cEntry2 : XmlElement :=
  .mk "atom:entry" [] none
    [.mk "atom:id" [] (some "http://arxiv.org/abs/2401.00002v1") [],
     .mk "atom:updated" [] (some "2024-01-04T00:00:00Z") [],
     .mk "atom:published" [] (some "2024-01-03T00:00:00Z") [],
     .mk "atom:title" [] (some "Second title") [],
     .mk "atom:summary" [] (some "Second summary") [],
     mkAuthor "Carol",
     .mk "atom:link" [("rel", "alternate"), ("href", "http://arxiv.org/abs/2401.00002v1")]
       none [],
     .mk "atom:link" [("title", "pdf"), ("href", "http://arxiv.org/pdf/2401.00002v1")]
       none [],
     .mk "arxiv:primary_category" [("term", "cs.CL")] none [],
     .mk "atom:category" [("term", "cs.CL")] none []]

/-- A well-formed two-entry feed root. -/
def cFeed : XmlElement := .mk "feed" [] none [cEntry1, cEntry2]

/-- An `atom:entry` with every required element present but whose one
`atom:category` element carries no `term` attribute. -/
def cEntryNoTerm : XmlElement :=
  .mk "atom:entry" [] none
    [.mk "atom:id" [] (some "http://arxiv.org/abs/2401.00003v1") [],
     .mk "atom:updated" [] (some "2024-01-06T00:00:00Z") [],
     .mk "atom:published" [] (some "2024-01-05T00:00:00Z") [],
     .mk "atom:title" [] (some "Third title") [],
     .mk "atom:summary" [] (some "Third summary") [],
     mkAuthor "Dave",
     .mk "atom:link" [("rel", "alternate"), ("href", "http://arxiv.org/abs/2401.00003v1")]
       none [],
     .mk "atom:link" [("title", "pdf"), ("href", "http://arxiv.org/pdf/2401.00003v1")]
       none [],
     .mk "arxiv:primary_category" [("term", "cs.CV")] none [],
     .mk "atom:category" [] none []]

/-- A feed whose single entry is `cEntryNoTerm`. -/
def cFeedNoTerm : XmlElement := .mk "feed" [] none [cEntryNoTerm]

/-- The record the parser actually returns for `cEntryNoTerm`: the
category list holds `none` where the `term` attribute is missing. -/
def cRecNoTerm : ArxivApiQueryResponse :=
  ⟨some "http://arxiv.org/abs/2401.00003v1", some "2024-01-06T00:00:00Z",
   some "2024-01-05T00:00:00Z", some "Third title", "Third summary", [some "Dave"],
   some "http://arxiv.org/abs/2401.00003v1", some "http://arxiv.org/pdf/2401.00003v1",
   some "cs.CV", [none]⟩

/-- The record the parser returns for `cEntry1`. -/
def cRec1 : ArxivApiQueryResponse :=
  ⟨some "http://arxiv.org/abs/2401.00001v1", some "2024-01-02T00:00:00Z",
   some "2024-01-01T00:00:00Z", some "First title", "First summary",
   [some "Alice", some "Bob"], some "http://arxiv.org/abs/2401.00001v1",
   some "http://arxiv.org/pdf/2401.00001v1", some "cs.AI",
   [some "cs.AI", some "cs.LG"]⟩

/-- The record the parser returns for `cEntry2`. -/
def cRec2 : ArxivApiQueryResponse :=
  ⟨some "http://arxiv.org/abs/2401.00002v1", some "2024-01-04T00:00:00Z",
   some "2024-01-03T00:00:00Z", some "Second title", "Second summary",
   [some "Carol"], some "http://arxiv.org/abs/2401.00002v1",
   some "http://arxiv.org/pdf/2401.00002v1", some "cs.CL", [some "cs.CL"]⟩

/-- An `atom:entry` missing its `atom:title` element. -/
def cEntryNoTitle : XmlElement :=
  .mk "atom:entry" [] none
    [.mk "atom:id" [] (some "http://arxiv.org/abs/2401.00004v1") [],
     .mk "atom:updated" [] (some "2024-01-08T00:00:00Z") [],
     .mk "atom:published" [] (some "2024-01-07T00:00:00Z") [],
     .mk "atom:summary" [] (some "Fourth summary") [],
     mkAuthor "Erin",
     .mk "atom:link" [("rel", "alternate"), ("href", "http://arxiv.org/abs/2401.00004v1")]
       none [],
     .mk "atom:link" [("title", "pdf"), ("href", "http://arxiv.org/pdf/2401.00004v1")]
       none [],
     .mk "arxiv:primary_category" [("term", "cs.RO")] none [],
     .mk "atom:category" [("term", "cs.RO")] none []]

/-- A feed whose entries are `cEntry1` and `cEntryNoTitle`. -/
def cFeedNoTitle : XmlElement := .mk "feed" [] none [cEntry1, cEntryNoTitle]

/-! ## Claims C7 and C10 -/

/-- C7: the URL builder raises `InvalidArgument` (Python `ValueError`)
exactly when the search expression is empty; on any non-empty
expression it returns a URL against the arXiv query endpoint whose
parameter string is exactly the three parameters `search_query`,
`start` and `max_results`, joined by `&`. -/
theorem get_query_url_invalid_iff_empty (s : String) (a b : Int) :
    (get_query_url s a b = .error PyErr.valueError ↔ s = "") ∧
    (s ≠ "" →
      get_query_url s a b =
        .ok (base_url ++ "/query?" ++ pyJoin "&"
          ["search_query=" ++ s, "start=" ++ toString a, "max_results=" ++ toString b])) := by
  constructor
  · constructor
    · intro h
      by_contra hne
      simp [get_query_url, hne] at h
    · intro h
      simp [get_query_url, h]
  · intro h
    simp [get_query_url, h, get_query_params]

/-- Witness for C7 at a concrete non-empty expression and at the empty
expression. -/
theorem get_query_url_invalid_iff_empty_witness :
    (get_query_url "" 0 10 = .error PyErr.valueError ↔ ("" : String) = "") ∧
    (get_query_url "ti:transformers" 0 10 =
      .ok (base_url ++ "/query?" ++ pyJoin "&"
        ["search_query=" ++ "ti:transformers", "start=" ++ toString (0 : Int),
         "max_results=" ++ toString (10 : Int)])) :=
  ⟨(get_query_url_invalid_iff_empty "" 0 10).1,
   (get_query_url_invalid_iff_empty "ti:transformers" 0 10).2 (by decide)⟩

/-- C10: for every non-empty search expression and all integers `a`, `b`
(including negative or zero pagination values, embedded unchanged), the
URL is the verbatim concatenation with no URL-encoding of the
expression. -/
theorem get_query_url_verbatim (s : String) (a b : Int) (h : s ≠ "") :
    get_query_url s a b =
      .ok ("http://export.arxiv.org/api/query?search_query=" ++ s ++ "&start=" ++
        toString a ++ "&max_results=" ++ toString b) := by
  simp only [get_query_url, if_neg h, get_query_params, pyJoin, base_url]
  congr 1
  simp only [String.append_assoc]
  rfl

/-- Witness for C10: an expression containing characters that URL
encoding would rewrite, with a negative start and zero max_results,
embedded verbatim. -/
theorem get_query_url_verbatim_witness :
    get_query_url "a b&c=d" (-3) 0 =
      .ok ("http://export.arxiv.org/api/query?search_query=" ++ "a b&c=d" ++ "&start=" ++
        toString (-3 : Int) ++ "&max_results=" ++ toString (0 : Int)) :=
  get_query_url_verbatim "a b&c=d" (-3) 0 (by decide)

/-! ## Claim C8 -/

/-- Key lookup succeeds on an association list that has the key. -/
theorem lookup_of_jsonObjHas (key : String) (fields : List (String × Json))
    (h : jsonObjHas fields key = true) : ∃ v, fields.lookup key = some v := by
  induction fields with
  | nil => simp [jsonObjHas] at h
  | cons p rest ih =>
    rcases p with ⟨k, v⟩
    by_cases hk : key = k
    · exact ⟨v, by simp [List.lookup, hk]⟩
    · have h2 : jsonObjHas rest key = true := by
        simp only [jsonObjHas, List.any_cons, Bool.or_eq_true, beq_iff_eq] at h
        rcases h with h | h
        · exact absurd h.symm hk
        · exact h
      obtain ⟨v2, hv⟩ := ih h2
      refine ⟨v2, ?_⟩
      have hk2 : (key == k) = false := by simp [hk]
      simp [List.lookup, hk2, hv]

/-- C8 counterexample: `"5"` is valid JSON in which both required
fields are absent, yet the parser raises `TypeError` (from `key in 5`),
not the `KeyError` schema error the claim requires. -/
theorem parse_search_query_response_counterexample :
    parse_search_query_response (.ok (Json.num 5)) = .error PyErr.typeError ∧
    parse_search_query_response (.ok (Json.num 5)) ≠ .error PyErr.keyError := by
  refine ⟨rfl, ?_⟩
  intro h
  rw [show parse_search_query_response (.ok (Json.num 5)) = .error PyErr.typeError from rfl] at h
  injection h with h2
  exact absurd h2 (by decide)

/-- C8 amended: an invalid-JSON outcome is re-raised as a decode error
(`ParseError`); when the string decodes to a JSON *object*, a missing
`search_query` or `explanation` key raises `KeyError` (`SchemaError`)
and when both keys are present the parser returns exactly the two
looked-up fields.  (Valid JSON whose top-level value is not an object
escapes this taxonomy: membership on it may raise `TypeError`.) -/
theorem parse_search_query_response_amended (loadsResult : Except PyErr Json)
    (fields : List (String × Json)) :
    (loadsResult = .error PyErr.jsonDecodeError →
      parse_search_query_response loadsResult = .error PyErr.jsonDecodeError) ∧
    (loadsResult = .ok (Json.obj fields) →
      ((jsonObjHas fields "search_query" = false ∨ jsonObjHas fields "explanation" = false) →
        parse_search_query_response loadsResult = .error PyErr.keyError) ∧
      (jsonObjHas fields "search_query" = true → jsonObjHas fields "explanation" = true →
        ∃ sq ex, fields.lookup "search_query" = some sq ∧
          fields.lookup "explanation" = some ex ∧
          parse_search_query_response loadsResult = .ok ⟨sq, ex⟩)) := by
  constructor
  · intro h; subst h; rfl
  · intro h; subst h
    constructor
    · intro hmiss
      rcases hmiss with hm | hm
      · simp only [jsonObjHas] at hm
        simp [parse_search_query_response, pyContains, hm]
      · simp only [jsonObjHas] at hm
        cases hq : (fields.any fun p => p.1 == "search_query") with
        | false => simp [parse_search_query_response, pyContains, hq]
        | true => simp [parse_search_query_response, pyContains, hq, hm]
    · intro h1 h2
      obtain ⟨sq, hsq⟩ := lookup_of_jsonObjHas "search_query" fields h1
      obtain ⟨ex, hex⟩ := lookup_of_jsonObjHas "explanation" fields h2
      refine ⟨sq, ex, hsq, hex, ?_⟩
      simp only [jsonObjHas] at h1 h2
      simp [parse_search_query_response, pyContains, pySubscript, h1, h2, hsq, hex]

/-- Witness for C8 (amended) on a concrete well-shaped LLM reply. -/
theorem parse_search_query_response_amended_witness :
    ∃ sq ex,
      ([("search_query", Json.str "ti:rag"), ("explanation", Json.str "why")].lookup
        "search_query" = some sq) ∧
      ([("search_query", Json.str "ti:rag"), ("explanation", Json.str "why")].lookup
        "explanation" = some ex) ∧
      parse_search_query_response
        (.ok (Json.obj [("search_query", Json.str "ti:rag"),
          ("explanation", Json.str "why")])) = .ok ⟨sq, ex⟩ :=
  ((parse_search_query_response_amended
    (.ok (Json.obj [("search_query", Json.str "ti:rag"), ("explanation", Json.str "why")]))
    [("search_query", Json.str "ti:rag"), ("explanation", Json.str "why")]).2 rfl).2
    (by decide) (by decide)

/-! ## Helper lemmas about `mapE` and the accessor embeddings -/

/-- A successful `mapE` run produces one output per input. -/
theorem mapE_ok_length {ε α β : Type} (f : α → Except ε β) :
    ∀ (xs : List α) (ys : List β), mapE f xs = .ok ys → ys.length = xs.length := by
  intro xs
  induction xs with
  | nil =>
    intro ys h
    simp only [mapE] at h
    injection h with h2
    subst h2
    rfl
  | cons x xs ih =>
    intro ys h
    simp only [mapE] at h
    cases hfx : f x with
    | error e => rw [hfx] at h; exact Except.noConfusion h
    | ok y =>
      rw [hfx] at h
      cases hm : mapE f xs with
      | error e => rw [hm] at h; exact Except.noConfusion h
      | ok ys2 =>
        rw [hm] at h
        injection h with h2
        subst h2
        simp [ih ys2 hm]

/-- A successful `mapE` run maps input `i` to output `i`: order is
preserved pointwise. -/
theorem mapE_ok_get {ε α β : Type} (f : α → Except ε β) :
    ∀ (xs : List α) (ys : List β), mapE f xs = .ok ys →
      ∀ i (hi : i < xs.length) (hi2 : i < ys.length),
        f (xs.get ⟨i, hi⟩) = .ok (ys.get ⟨i, hi2⟩) := by
  intro xs
  induction xs with
  | nil =>
    intro ys h i hi
    exact absurd hi (by simp)
  | cons x xs ih =>
    intro ys h i hi hi2
    simp only [mapE] at h
    cases hfx : f x with
    | error e => rw [hfx] at h; exact Except.noConfusion h
    | ok y =>
      rw [hfx] at h
      cases hm : mapE f xs with
      | error e => rw [hm] at h; exact Except.noConfusion h
      | ok ys2 =>
        rw [hm] at h
        injection h with h2
        subst h2
        cases i with
        | zero => simpa using hfx
        | succ j =>
          have hj : j < xs.length := Nat.lt_of_succ_lt_succ hi
          have hj2 : j < ys2.length := Nat.lt_of_succ_lt_succ hi2
          simpa using ih ys2 hm j hj hj2

/-- Every input of a successful `mapE` run itself succeeded. -/
theorem mapE_ok_forall {ε α β : Type} (f : α → Except ε β) :
    ∀ (xs : List α) (ys : List β), mapE f xs = .ok ys →
      ∀ x, x ∈ xs → ∃ y, f x = .ok y := by
  intro xs
  induction xs with
  | nil =>
    intro ys h x hx
    cases hx
  | cons a xs ih =>
    intro ys h x hx
    simp only [mapE] at h
    cases hfa : f a with
    | error e => rw [hfa] at h; exact Except.noConfusion h
    | ok y =>
      rw [hfa] at h
      cases hm : mapE f xs with
      | error e => rw [hm] at h; exact Except.noConfusion h
      | ok ys2 =>
        rcases List.mem_cons.mp hx with hxa | hxs
        · subst hxa; exact ⟨y, hfa⟩
        · exact ih ys2 hm x hxs

/-- A failed `mapE` run pinpoints a failing input with the same error. -/
theorem mapE_err_mem {ε α β : Type} (f : α → Except ε β) :
    ∀ (xs : List α) (e : ε), mapE f xs = .error e →
      ∃ x, x ∈ xs ∧ f x = .error e := by
  intro xs
  induction xs with
  | nil =>
    intro e h
    simp only [mapE] at h
    exact Except.noConfusion h
  | cons a xs ih =>
    intro e h
    simp only [mapE] at h
    cases hfa : f a with
    | error e2 =>
      rw [hfa] at h
      injection h with h2
      subst h2
      exact ⟨a, List.mem_cons_self a xs, hfa⟩
    | ok y =>
      rw [hfa] at h
      cases hm : mapE f xs with
      | error e2 =>
        rw [hm] at h
        injection h with h2
        subst h2
        obtain ⟨x, hx, hfx⟩ := ih e2 hm
        exact ⟨x, List.mem_cons_of_mem a hx, hfx⟩
      | ok ys2 =>
        rw [hm] at h
        exact Except.noConfusion h

/-- If some member of the list fails and the function only ever fails
with error `e0`, the whole `mapE` run fails with `e0`. -/
theorem mapE_error_of_bad {ε α β : Type} (f : α → Except ε β) (e0 : ε)
    (honly : ∀ x e, f x = .error e → e = e0) :
    ∀ (xs : List α) (x0 : α), x0 ∈ xs → (∀ y, f x0 ≠ .ok y) →
      mapE f xs = .error e0 := by
  intro xs
  induction xs with
  | nil =>
    intro x0 hx0
    cases hx0
  | cons a xs ih =>
    intro x0 hx0 hbad
    rcases List.mem_cons.mp hx0 with hxa | hxs
    · subst hxa
      cases hfa : f x0 with
      | error e =>
        have := honly x0 e hfa
        subst this
        simp [mapE, hfa]
      | ok y => exact absurd hfa (hbad y)
    · cases hfa : f a with
      | error e =>
        have := honly a e hfa
        subst this
        simp [mapE, hfa]
      | ok y =>
        simp [mapE, hfa, ih x0 hxs hbad]

/-- A succeeding `find(...).text` means the element was found. -/
theorem fText_ok_found (e : XmlElement) (t : String) (o : Option String)
    (h : fText e t = .ok o) : ∃ c, find e t = some c ∧ c.text = o := by
  unfold fText at h
  cases hf : find e t with
  | none => rw [hf] at h; exact Except.noConfusion h
  | some c =>
    rw [hf] at h
    injection h with h2
    exact ⟨c, rfl, h2⟩

/-- The accessor `find(...).text` only ever fails with `AttributeError`, and only
when the element was not found. -/
theorem fText_err_val (e : XmlElement) (t : String) (err : PyErr)
    (h : fText e t = .error err) : find e t = none ∧ err = PyErr.attributeError := by
  unfold fText at h
  cases hf : find e t with
  | none =>
    rw [hf] at h
    injection h with h2
    exact ⟨rfl, h2.symm⟩
  | some c =>
    rw [hf] at h
    exact Except.noConfusion h

/-- A succeeding `find(...).text.strip()` means the element was found
with text present. -/
theorem fTextStrip_ok_found (e : XmlElement) (t : String) (s : String)
    (h : fTextStrip e t = .ok s) :
    ∃ c tx, find e t = some c ∧ c.text = some tx ∧ s = pyStrip tx := by
  unfold fTextStrip at h
  split at h
  · exact Except.noConfusion h
  · rename_i c hf
    split at h
    · exact Except.noConfusion h
    · rename_i tx ht
      injection h with h2
      exact ⟨c, tx, hf, ht, h2.symm⟩

/-- A succeeding `find(path).get(attr)` means a matching element was
found; the attribute value is returned as-is (possibly `none`). -/
theorem fAttr_ok_found (e : XmlElement) (p : XmlElement → Bool) (a : String)
    (o : Option String) (h : fAttr e p a = .ok o) :
    ∃ c, findP e p = some c ∧ c.attr a = o := by
  unfold fAttr at h
  cases hf : findP e p with
  | none => rw [hf] at h; exact Except.noConfusion h
  | some c =>
    rw [hf] at h
    injection h with h2
    exact ⟨c, rfl, h2⟩

/-- Inversion of a successful `parseEntry`: every required `find`
succeeded and each record field is exactly the extracted value, the
author list coming from the `atom:author` children and the category
list from the `atom:category` children, both in document order. -/
theorem parseEntry_ok_inv (entry : XmlElement) (r : ArxivApiQueryResponse)
    (h : parseEntry entry = .ok r) :
    fText entry "atom:id" = .ok r.id ∧
    fText entry "atom:updated" = .ok r.updated ∧
    fText entry "atom:published" = .ok r.published ∧
    fText entry "atom:title" = .ok r.title ∧
    fTextStrip entry "atom:summary" = .ok r.summary ∧
    mapE (fun a => fText a "atom:name") (findall entry "atom:author") = .ok r.authors ∧
    fAttr entry isAlternateLink "href" = .ok r.link ∧
    fAttr entry isPdfLink "href" = .ok r.pdf_link ∧
    fAttr entry (fun c => c.tag == "arxiv:primary_category") "term" =
      .ok r.primary_category ∧
    r.categories = (findall entry "atom:category").map (fun c => c.attr "term") := by
  unfold parseEntry at h
  split at h
  · exact Except.noConfusion h
  rename_i idT hid
  split at h
  · exact Except.noConfusion h
  rename_i upT hup
  split at h
  · exact Except.noConfusion h
  rename_i pubT hpub
  split at h
  · exact Except.noConfusion h
  rename_i titT htit
  split at h
  · exact Except.noConfusion h
  rename_i sumT hsum
  split at h
  · exact Except.noConfusion h
  rename_i authL hauth
  split at h
  · exact Except.noConfusion h
  rename_i linkT hlink
  split at h
  · exact Except.noConfusion h
  rename_i pdfT hpdf
  split at h
  · exact Except.noConfusion h
  rename_i pcT hpc
  injection h with h2
  subst h2
  exact ⟨hid, hup, hpub, htit, hsum, hauth, hlink, hpdf, hpc, rfl⟩

/-- The entry parser fails only with `AttributeError`. -/
theorem parseEntry_err_val (entry : XmlElement) (err : PyErr)
    (h : parseEntry entry = .error err) : err = PyErr.attributeError := by
  unfold parseEntry at h
  split at h
  · rename_i e2 he
    injection h with h2
    subst h2
    exact (fText_err_val _ _ _ he).2
  split at h
  · rename_i e2 he
    injection h with h2
    subst h2
    exact (fText_err_val _ _ _ he).2
  split at h
  · rename_i e2 he
    injection h with h2
    subst h2
    exact (fText_err_val _ _ _ he).2
  split at h
  · rename_i e2 he
    injection h with h2
    subst h2
    exact (fText_err_val _ _ _ he).2
  split at h
  · rename_i e2 he
    injection h with h2
    subst h2
    unfold fTextStrip at he
    split at he
    · injection he with h3
      exact h3.symm
    · split at he
      · injection he with h3
        exact h3.symm
      · exact Except.noConfusion he
  split at h
  · rename_i e2 he
    injection h with h2
    subst h2
    obtain ⟨a, _, hfa⟩ := mapE_err_mem _ _ _ he
    exact (fText_err_val _ _ _ hfa).2
  split at h
  · rename_i e2 he
    injection h with h2
    subst h2
    unfold fAttr at he
    split at he
    · injection he with h3
      exact h3.symm
    · exact Except.noConfusion he
  split at h
  · rename_i e2 he
    injection h with h2
    subst h2
    unfold fAttr at he
    split at he
    · injection he with h3
      exact h3.symm
    · exact Except.noConfusion he
  split at h
  · rename_i e2 he
    injection h with h2
    subst h2
    unfold fAttr at he
    split at he
    · injection he with h3
      exact h3.symm
    · exact Except.noConfusion he
  exact Except.noConfusion h

/-! ## Claim C2 -/

/-- C2: a successfully parsed feed yields exactly one record per
`atom:entry` element, in document order, and within each record the
author and category lists follow the document order of the `atom:author`
and `atom:category` elements of that entry. -/
theorem parse_query_xml_order (root : XmlElement) (rs : List ArxivApiQueryResponse)
    (h : parse_query_xml (.ok root) = .ok rs) :
    rs.length = (findall root "atom:entry").length ∧
    (∀ i (hi : i < (findall root "atom:entry").length) (hr : i < rs.length),
      parseEntry ((findall root "atom:entry").get ⟨i, hi⟩) = .ok (rs.get ⟨i, hr⟩) ∧
      mapE (fun a => fText a "atom:name")
          (findall ((findall root "atom:entry").get ⟨i, hi⟩) "atom:author") =
        .ok ((rs.get ⟨i, hr⟩).authors) ∧
      (rs.get ⟨i, hr⟩).categories =
        (findall ((findall root "atom:entry").get ⟨i, hi⟩) "atom:category").map
          (fun c => c.attr "term")) := by
  have hm : mapE parseEntry (findall root "atom:entry") = .ok rs := h
  refine ⟨mapE_ok_length _ _ _ hm, ?_⟩
  intro i hi hr
  have hpe := mapE_ok_get _ _ _ hm i hi hr
  have hinv := parseEntry_ok_inv _ _ hpe
  exact ⟨hpe, hinv.2.2.2.2.2.1, hinv.2.2.2.2.2.2.2.2.2⟩

/-- Witness for C2 on the concrete two-entry feed `cFeed`. -/
theorem parse_query_xml_order_witness :
    ([cRec1, cRec2] : List ArxivApiQueryResponse).length =
      (findall cFeed "atom:entry").length :=
  (parse_query_xml_order cFeed [cRec1, cRec2] rfl).1

/-! ## Claim C3 -/

/-- C3 counterexample: the feed `cFeedNoTerm` has an entry whose
`atom:category` element is missing its `term` attribute, yet the parser
does not raise — it returns a record whose category list holds a `None`
placeholder. -/
theorem parse_query_xml_attr_counterexample :
    parse_query_xml (.ok cFeedNoTerm) = .ok [cRecNoTerm] ∧
    cRecNoTerm.categories = [none] :=
  ⟨rfl, rfl⟩

/-- C3 amended: an entry missing any required *element* (id, updated,
published, title, summary, an author's name, the alternate link, the
pdf link, or the primary_category element) makes the whole batch fail
with `AttributeError`; missing *attributes* on present elements do not
(see the counterexample). -/
theorem parse_query_xml_missing_element_fails (root entry : XmlElement)
    (hmem : entry ∈ findall root "atom:entry")
    (hmiss :
      find entry "atom:id" = none ∨ find entry "atom:updated" = none ∨
      find entry "atom:published" = none ∨ find entry "atom:title" = none ∨
      find entry "atom:summary" = none ∨
      (∃ a, a ∈ findall entry "atom:author" ∧ find a "atom:name" = none) ∨
      findP entry isAlternateLink = none ∨ findP entry isPdfLink = none ∨
      findP entry (fun c => c.tag == "arxiv:primary_category") = none) :
    parse_query_xml (.ok root) = .error PyErr.attributeError := by
  have hbad : ∀ y, parseEntry entry ≠ .ok y := by
    intro y hok
    have hinv := parseEntry_ok_inv entry y hok
    rcases hmiss with hm | hm | hm | hm | hm | hm | hm | hm | hm
    · obtain ⟨c, hc, _⟩ := fText_ok_found _ _ _ hinv.1
      rw [hm] at hc
      exact Option.noConfusion hc
    · obtain ⟨c, hc, _⟩ := fText_ok_found _ _ _ hinv.2.1
      rw [hm] at hc
      exact Option.noConfusion hc
    · obtain ⟨c, hc, _⟩ := fText_ok_found _ _ _ hinv.2.2.1
      rw [hm] at hc
      exact Option.noConfusion hc
    · obtain ⟨c, hc, _⟩ := fText_ok_found _ _ _ hinv.2.2.2.1
      rw [hm] at hc
      exact Option.noConfusion hc
    · obtain ⟨c, tx, hc, _, _⟩ := fTextStrip_ok_found _ _ _ hinv.2.2.2.2.1
      rw [hm] at hc
      exact Option.noConfusion hc
    · obtain ⟨a, ha, hnone⟩ := hm
      obtain ⟨o, hao⟩ := mapE_ok_forall _ _ _ hinv.2.2.2.2.2.1 a ha
      obtain ⟨c, hc, _⟩ := fText_ok_found _ _ _ hao
      rw [hnone] at hc
      exact Option.noConfusion hc
    · obtain ⟨c, hc, _⟩ := fAttr_ok_found _ _ _ _ hinv.2.2.2.2.2.2.1
      rw [hm] at hc
      exact Option.noConfusion hc
    · obtain ⟨c, hc, _⟩ := fAttr_ok_found _ _ _ _ hinv.2.2.2.2.2.2.2.1
      rw [hm] at hc
      exact Option.noConfusion hc
    · obtain ⟨c, hc, _⟩ := fAttr_ok_found _ _ _ _ hinv.2.2.2.2.2.2.2.2.1
      rw [hm] at hc
      exact Option.noConfusion hc
  show mapE parseEntry (findall root "atom:entry") = .error PyErr.attributeError
  exact mapE_error_of_bad parseEntry PyErr.attributeError
    (fun x e he => parseEntry_err_val x e he) (findall root "atom:entry") entry hmem hbad

/-- Witness for C3 (amended): a feed whose second entry has no
`atom:title` element fails as a whole batch. -/
theorem parse_query_xml_missing_element_fails_witness :
    parse_query_xml (.ok cFeedNoTitle) = .error PyErr.attributeError :=
  parse_query_xml_missing_element_fails cFeedNoTitle cEntryNoTitle
    (show cEntryNoTitle ∈ [cEntry1, cEntryNoTitle] from
      List.mem_cons_of_mem _ (List.mem_cons_self _ _))
    (Or.inr (Or.inr (Or.inr (Or.inl rfl))))

/-! ## Helper lemmas about the reranker -/

/-- If every input succeeds, `mapE` succeeds. -/
theorem mapE_ok_of_forall {ε α β : Type} (f : α → Except ε β) :
    ∀ xs : List α, (∀ x, x ∈ xs → ∃ y, f x = .ok y) → ∃ ys, mapE f xs = .ok ys := by
  intro xs
  induction xs with
  | nil =>
    intro h
    exact ⟨[], rfl⟩
  | cons a xs ih =>
    intro h
    obtain ⟨y, hy⟩ := h a (List.mem_cons_self a xs)
    obtain ⟨ys, hys⟩ := ih (fun x hx => h x (List.mem_cons_of_mem a hx))
    exact ⟨y :: ys, by simp [mapE, hy, hys]⟩

/-- Inversion of a successful rerank: one output per provider result,
and output `k` is `documents[results[k].index]` with `results[k]`'s
score attached. -/
theorem rerank_ok_inv (q : String) (docs : List ArxivApiQueryResponse) (tn : Nat)
    (resp : RerankResponse) (out : List ArxivApiResponse)
    (h : (rerank_results q docs tn (.ok resp)).1 = .ok out) :
    out.length = resp.results.length ∧
    ∀ k (hk : k < resp.results.length) (hk2 : k < out.length),
      ∃ doc, docs.get? ((resp.results.get ⟨k, hk⟩).index) = some doc ∧
        out.get ⟨k, hk2⟩ =
          ArxivApiResponse.from_query_response doc
            ((resp.results.get ⟨k, hk⟩).relevance_score) := by
  have hm : mapE (fun result =>
      match docs.get? result.index with
      | none => .error PyErr.indexError
      | some doc =>
        .ok (ArxivApiResponse.from_query_response doc result.relevance_score))
      resp.results = .ok out := h
  refine ⟨mapE_ok_length _ _ _ hm, ?_⟩
  intro k hk hk2
  have hg := mapE_ok_get _ _ _ hm k hk hk2
  cases hd : docs.get? ((resp.results.get ⟨k, hk⟩).index) with
  | none =>
    rw [hd] at hg
    exact Except.noConfusion hg
  | some doc =>
    rw [hd] at hg
    injection hg with h2
    exact ⟨doc, rfl, h2.symm⟩

/-! ## Claim C9 -/

/-- C9: the reranker indexes `documents[result.index]` with no bounds
check.  When every provider-returned index is below the candidate
count the run succeeds and every output record is an actual input
candidate; a provider result whose index is out of range makes the run
fail with `IndexError`. -/
theorem rerank_results_index_safety (q : String) (docs : List ArxivApiQueryResponse)
    (tn : Nat) (resp : RerankResponse) :
    ((∀ r, r ∈ resp.results → r.index < docs.length) →
      ∃ out, (rerank_results q docs tn (.ok resp)).1 = .ok out ∧
        ∀ k (hk : k < out.length), ∃ j, ∃ hj : j < docs.length,
          (out.get ⟨k, hk⟩).toQueryResponse = docs.get ⟨j, hj⟩) ∧
    ((∃ r, r ∈ resp.results ∧ docs.length ≤ r.index) →
      (rerank_results q docs tn (.ok resp)).1 = .error PyErr.indexError) := by
  constructor
  · intro hall
    have hex : ∀ r, r ∈ resp.results → ∃ y,
        (fun result =>
          match docs.get? result.index with
          | none => Except.error PyErr.indexError
          | some doc =>
            Except.ok (ArxivApiResponse.from_query_response doc result.relevance_score))
          r = .ok y := by
      intro r hr
      have hlt := hall r hr
      refine ⟨ArxivApiResponse.from_query_response (docs.get ⟨r.index, hlt⟩)
        r.relevance_score, ?_⟩
      simp [List.getElem?_eq_getElem hlt, List.get_eq_getElem]
    obtain ⟨out, hout⟩ := mapE_ok_of_forall _ resp.results hex
    refine ⟨out, hout, ?_⟩
    intro k hk
    have hlen : out.length = resp.results.length := mapE_ok_length _ _ _ hout
    have hk2 : k < resp.results.length := by rw [← hlen]; exact hk
    obtain ⟨doc, hdoc, hrec⟩ := (rerank_ok_inv q docs tn resp out hout).2 k hk2 hk
    have hidx : (resp.results.get ⟨k, hk2⟩).index < docs.length :=
      hall _ (resp.results.get_mem _ _)
    refine ⟨(resp.results.get ⟨k, hk2⟩).index, hidx, ?_⟩
    rw [List.get?_eq_get hidx] at hdoc
    injection hdoc with hdoc2
    rw [hrec, ← hdoc2]
    rfl
  · intro hbad
    obtain ⟨r, hr, hge⟩ := hbad
    have hnone : docs.get? r.index = none := List.get?_eq_none.mpr hge
    show mapE (fun result =>
        match docs.get? result.index with
        | none => Except.error PyErr.indexError
        | some doc =>
          Except.ok (ArxivApiResponse.from_query_response doc result.relevance_score))
        resp.results = .error PyErr.indexError
    refine mapE_error_of_bad _ PyErr.indexError ?_ resp.results r hr ?_
    · intro x e he
      cases hx : docs.get? x.index with
      | none => rw [hx] at he; injection he with h2; exact h2.symm
      | some doc => rw [hx] at he; exact Except.noConfusion he
    · intro y hy
      rw [hnone] at hy
      exact Except.noConfusion hy

/-- Witness for C9: with one candidate and a provider response whose
index is 1, the rerank fails with `IndexError`. -/
theorem rerank_results_index_safety_witness :
    (rerank_results "q" [cRec1] 10 (.ok ⟨[⟨1, 1⟩]⟩)).1 = .error PyErr.indexError :=
  (rerank_results_index_safety "q" [cRec1] 10 ⟨[⟨1, 1⟩]⟩).2
    ⟨⟨1, 1⟩, List.mem_cons_self _ _, by decide⟩

/-! ## Claim C4 -/

/-- C4: the reranker performs no sorting or truncation of its own; its
output inherits them from the provider response.  Under the provider's
contract — results sorted by non-increasing score, at most `top_n` of
them, and covering every candidate index when `top_n` is at least the
candidate count — the successful output is sorted by non-increasing
`relevance_score`, has at most `top_n` entries, and contains every
candidate when `top_n` is at least the candidate count. -/
theorem rerank_results_sorted_truncated (q : String)
    (docs : List ArxivApiQueryResponse) (tn : Nat) (resp : RerankResponse)
    (out : List ArxivApiResponse)
    (hsorted : resp.results.Pairwise (fun a b => b.relevance_score ≤ a.relevance_score))
    (hlen : resp.results.length ≤ tn)
    (hcover : docs.length ≤ tn → ∀ j, j < docs.length →
      ∃ r, r ∈ resp.results ∧ r.index = j)
    (h : (rerank_results q docs tn (.ok resp)).1 = .ok out) :
    out.Pairwise (fun a b => b.relevance_score ≤ a.relevance_score) ∧
    out.length ≤ tn ∧
    (docs.length ≤ tn → ∀ j (hj : j < docs.length), ∃ k, ∃ hk : k < out.length,
      (out.get ⟨k, hk⟩).toQueryResponse = docs.get ⟨j, hj⟩) := by
  obtain ⟨hlen2, hget⟩ := rerank_ok_inv q docs tn resp out h
  have hscore : ∀ k (hk : k < resp.results.length) (hk2 : k < out.length),
      (out.get ⟨k, hk2⟩).relevance_score =
        (resp.results.get ⟨k, hk⟩).relevance_score := by
    intro k hk hk2
    obtain ⟨doc, _, hrec⟩ := hget k hk hk2
    rw [hrec]
    rfl
  refine ⟨?_, ?_, ?_⟩
  · rw [List.pairwise_iff_get] at hsorted ⊢
    intro i j hij
    have hi : (i : Nat) < resp.results.length := by rw [← hlen2]; exact i.isLt
    have hj : (j : Nat) < resp.results.length := by rw [← hlen2]; exact j.isLt
    have hs := hsorted ⟨i, hi⟩ ⟨j, hj⟩ hij
    rw [hscore i hi i.isLt, hscore j hj j.isLt]
    exact hs
  · rw [hlen2]; exact hlen
  · intro htn j hj
    obtain ⟨r, hr, hidx⟩ := hcover htn j hj
    obtain ⟨k, hk⟩ := List.mem_iff_get.mp hr
    have hk2 : (k : Nat) < out.length := by rw [hlen2]; exact k.isLt
    obtain ⟨doc, hdoc, hrec⟩ := hget k k.isLt hk2
    refine ⟨k, hk2, ?_⟩
    simp only [Fin.eta] at hdoc
    rw [hk, hidx, List.get?_eq_get hj] at hdoc
    injection hdoc with hdoc2
    rw [hrec, ← hdoc2]
    rfl

/-- Witness for C4: two candidates, provider scores 9/10 for the
second and 1/2 for the first. -/
theorem rerank_results_sorted_truncated_witness :
    ([ArxivApiResponse.from_query_response cRec2 (9/10),
      ArxivApiResponse.from_query_response cRec1 (1/2)].Pairwise
        (fun a b => b.relevance_score ≤ a.relevance_score)) ∧
    ([ArxivApiResponse.from_query_response cRec2 (9/10),
      ArxivApiResponse.from_query_response cRec1 (1/2)] :
        List ArxivApiResponse).length ≤ 10 :=
  have hthm := rerank_results_sorted_truncated "q" [cRec1, cRec2] 10
    ⟨[⟨1, 9/10⟩, ⟨0, 1/2⟩]⟩
    [ArxivApiResponse.from_query_response cRec2 (9/10),
     ArxivApiResponse.from_query_response cRec1 (1/2)]
    (by
      refine List.Pairwise.cons ?_ ?_
      · intro b hb
        rw [List.mem_singleton] at hb
        subst hb
        norm_num
      · exact List.pairwise_singleton _ _)
    (by norm_num)
    (fun _ j hj => by
      match j, hj with
      | 0, _ => exact ⟨⟨0, 1/2⟩, by simp, rfl⟩
      | 1, _ => exact ⟨⟨1, 9/10⟩, by simp, rfl⟩)
    rfl
  ⟨hthm.1, hthm.2.1⟩

/-! ## Claim C5 -/

/-- C5: each record of a successful rerank equals, on all ten query
fields, the input candidate `documents[results[k].index]` it was built
from; only `relevance_score` is added (and it equals the provider's
score for that position). -/
theorem rerank_results_frame (q : String) (docs : List ArxivApiQueryResponse)
    (tn : Nat) (resp : RerankResponse) (out : List ArxivApiResponse)
    (h : (rerank_results q docs tn (.ok resp)).1 = .ok out) :
    ∀ k (hk : k < out.length), ∃ hk2 : k < resp.results.length, ∃ doc,
      docs.get? ((resp.results.get ⟨k, hk2⟩).index) = some doc ∧
      (out.get ⟨k, hk⟩).toQueryResponse = doc ∧
      (out.get ⟨k, hk⟩).relevance_score =
        (resp.results.get ⟨k, hk2⟩).relevance_score := by
  obtain ⟨hlen2, hget⟩ := rerank_ok_inv q docs tn resp out h
  intro k hk
  have hk2 : k < resp.results.length := by rw [← hlen2]; exact hk
  obtain ⟨doc, hdoc, hrec⟩ := hget k hk2 hk
  refine ⟨hk2, doc, hdoc, ?_, ?_⟩
  · rw [hrec]; rfl
  · rw [hrec]; rfl

/-- Witness for C5 on one candidate and one provider result. -/
theorem rerank_results_frame_witness :
    ∃ hk2 : 0 < (RerankResponse.mk [⟨0, 3/4⟩]).results.length, ∃ doc,
      ([cRec1].get? (((RerankResponse.mk [⟨0, 3/4⟩]).results.get ⟨0, hk2⟩).index) =
        some doc) ∧
      (([ArxivApiResponse.from_query_response cRec1 (3/4)].get ⟨0, by norm_num⟩).toQueryResponse
        = doc) ∧
      (([ArxivApiResponse.from_query_response cRec1 (3/4)].get
          ⟨0, by norm_num⟩).relevance_score =
        ((RerankResponse.mk [⟨0, 3/4⟩]).results.get ⟨0, hk2⟩).relevance_score) :=
  rerank_results_frame "q" [cRec1] 10 ⟨[⟨0, 3/4⟩]⟩
    [ArxivApiResponse.from_query_response cRec1 (3/4)] rfl 0 (by norm_num)

/-! ## Claim C6 -/

/-- C6 counterexample: on an empty candidate list the code still makes
exactly one call to the reranking provider (the call list is not
empty), so "without making a call to the reranking provider" fails. -/
theorem rerank_results_empty_calls_counterexample :
    (rerank_results "q" [] 10 (.ok ⟨[]⟩)).2 = [⟨"q", [], ["summary"], 10⟩] ∧
    (rerank_results "q" [] 10 (.ok ⟨[]⟩)).2 ≠ [] :=
  ⟨rfl, by simp [rerank_results]⟩

/-- C6 amended: on an empty candidate list the reranker still invokes
the provider exactly once; given a provider response whose result list
is empty, it returns an empty sequence without error. -/
theorem rerank_results_empty_amended (q : String) (tn : Nat) (resp : RerankResponse)
    (hresp : resp.results = []) :
    (rerank_results q [] tn (.ok resp)).1 = .ok [] ∧
    (rerank_results q [] tn (.ok resp)).2 = [⟨q, [], ["summary"], tn⟩] := by
  constructor
  · show mapE (fun result =>
        match ([] : List ArxivApiQueryResponse).get? result.index with
        | none => Except.error PyErr.indexError
        | some doc =>
          Except.ok (ArxivApiResponse.from_query_response doc result.relevance_score))
        resp.results = .ok []
    rw [hresp]
    rfl
  · rfl

/-- Witness for C6 (amended) at a concrete empty provider response. -/
theorem rerank_results_empty_amended_witness :
    (rerank_results "q" [] 10 (.ok (RerankResponse.mk []))).1 = .ok [] ∧
    (rerank_results "q" [] 10 (.ok (RerankResponse.mk []))).2 =
      [⟨"q", [], ["summary"], 10⟩] :=
  rerank_results_empty_amended "q" 10 ⟨[]⟩ rfl

/-! ## Claim C1 -/

/-- C1: whenever the HTTP GET step fails with a transport error — the
session raises a `RequestException` (connection error, timeout), or it
returns a 4xx/5xx response that `raise_for_status` turns into an
`HTTPError` — `query` prints a diagnostic message and evaluates to the
null-result sentinel `None`; the failure never propagates as an
exception to the caller. -/
theorem query_transport_failure_logged (genResult : Except PyErr String)
    (http : String → Except PyErr HttpResponse)
    (rerankResp : Except PyErr RerankResponse)
    (q sq url : String) (start max_results : Int) (top_n : Nat)
    (hgen : genResult = .ok sq)
    (hurl : get_query_url sq start max_results = .ok url)
    (hfail : (∃ m, http url = .error (.requestException m)) ∨
      (∃ resp, http url = .ok resp ∧ 400 ≤ resp.status ∧ resp.status < 600)) :
    (query genResult http rerankResp q start max_results top_n).result = .ok none ∧
    ∃ m, (query genResult http rerankResp q start max_results top_n).logs =
      ["An error occurred: " ++ m] := by
  subst hgen
  rcases hfail with ⟨m, hm⟩ | ⟨resp, hresp, hst1, hst2⟩
  · have hbody : query_try_body (.ok sq) http rerankResp q start max_results top_n =
        (.error (.requestException m), []) := by
      simp only [query_try_body, hurl, hm]
    exact ⟨by simp [query, hbody], m, by simp [query, hbody]⟩
  · have hrs : raise_for_status resp =
        .error (.requestException ("HTTP status " ++ toString resp.status)) := by
      simp [raise_for_status, hst1, hst2]
    have hbody : query_try_body (.ok sq) http rerankResp q start max_results top_n =
        (.error (.requestException ("HTTP status " ++ toString resp.status)), []) := by
      simp only [query_try_body, hurl, hresp, hrs]
    exact ⟨by simp [query, hbody],
      "HTTP status " ++ toString resp.status, by simp [query, hbody]⟩

/-- Witness for C1: a connection-refused GET on a concrete pipeline. -/
theorem query_transport_failure_logged_witness :
    (query (.ok "all:rag") (fun _ => .error (.requestException "connection refused"))
        (.ok ⟨[]⟩) "Retrieval Augmented Generation" 0 100 100).result = .ok none ∧
    ∃ m, (query (.ok "all:rag")
        (fun _ => .error (.requestException "connection refused"))
        (.ok ⟨[]⟩) "Retrieval Augmented Generation" 0 100 100).logs =
      ["An error occurred: " ++ m] :=
  query_transport_failure_logged (.ok "all:rag")
    (fun _ => .error (.requestException "connection refused")) (.ok ⟨[]⟩)
    "Retrieval Augmented Generation" "all:rag"
    "http://export.arxiv.org/api/query?search_query=all:rag&start=0&max_results=100"
    0 100 100 rfl rfl (Or.inl ⟨"connection refused", rfl⟩)
